import Mathlib

/-!
Shallow embedding of the pasteportal rest-listener lambda handlers
(`rest-listener/post.py` and `rest-listener/get.py`).

Modelling conventions:
* Python exceptions are modelled by `PyExc`; a function with a bare body
  (no `try`) that can raise returns `Except PyExc _`, a function whose
  `try/except` catches everything is total.
* `json.loads` is not re-implemented: a POST event carries both the raw
  body string (`body`) and the result of parsing it
  (`parsed : Option (List (String × String))`, `none` = JSONDecodeError);
  JSON object values are modelled as strings, which covers every value
  the handlers touch.
* The DynamoDB table is modelled as an association list `Store` keyed by
  the item id; `put_item` overwrites, `get_item` looks up.  The outcome
  of the network call made by `put_item` is an explicit input
  (`PutOutcome`), so both the success metadata check and the exception
  paths of `db_input` are represented.
* `random.randint` / `random.choice` / `datetime.now` are modelled by
  explicit inputs (`randVal`, `jokeIdx`, `nowIso`).
* Single quote characters are written `\x27` throughout.
-/

/-- Python exceptions that the embedded code can raise. -/
inductive PyExc where
  | keyError (key : String)
  | indexError
  | jsonDecodeError (msg : String)
  | valueError (msg : String)
  | resourceNotFound (msg : String)
  | otherError (msg : String)
deriving Repr, DecidableEq

/-- Python `str(e)` on an exception value. -/
def PyExc.toStr : PyExc → String
  | .keyError k => "\x27" ++ k ++ "\x27"
  | .indexError => "list index out of range"
  | .jsonDecodeError m => m
  | .valueError m => m
  | .resourceNotFound m => m
  | .otherError m => m

/-- Dynamic Python values as they reach `generate_response`:
`status_code` may be a non-int, `message` may be a string or a dict. -/
inductive PyVal where
  | int (n : Int)
  | str (s : String)
  | dict (entries : List (String × String))
deriving Repr, DecidableEq

/-- The JSON body of a response: either `json.dumps({"response": message})`
on the main path or `json.dumps({"error": msg})` on the fallback path. -/
inductive RespBody where
  | response (message : PyVal)
  | error (msg : String)
deriving Repr, DecidableEq

/-- The response envelope returned by `generate_response`. -/
structure Response where
  statusCode : Int
  body : RespBody
  headers : List (String × String)
deriving Repr, DecidableEq

/-- The single quote character. -/
def squote : Char := Char.ofNat 39

/-- Character-list version of Python `s.replace("\x27", "\x27\x27")`:
each single quote is doubled. -/
def replaceQuoteList : List Char → List Char
  | [] => []
  | c :: rest =>
    if c = squote then squote :: squote :: replaceQuoteList rest
    else c :: replaceQuoteList rest

/-- Python `s.replace("\x27", "\x27\x27")` (post.py line 112). -/
def pyReplaceQuote (s : String) : String := String.mk (replaceQuoteList s.data)

/-- Hex digit characters `0-9a-f`, as produced by Python `hex`. -/
def hexDigitChar (d : Nat) : Char :=
  if d < 10 then Char.ofNat (48 + d) else Char.ofNat (87 + d)

/-- Accumulator loop rendering `n` in lowercase hex, most significant
digit first; renders `0` as `"0"`, exactly like Python `hex(n)[2:]`. -/
def natToHexLoop (n : Nat) (acc : List Char) : List Char :=
  if h : n < 16 then hexDigitChar n :: acc
  else natToHexLoop (n / 16) (hexDigitChar (n % 16) :: acc)
termination_by n
decreasing_by exact Nat.div_lt_self (by omega) (by omega)

/-- Python `hex(n)[2:]`. -/
def natToHex (n : Nat) : String := String.mk (natToHexLoop n [])

/-- Python `s.zfill(w)` for strings of hex digits: left-pad with `0`. -/
def zfill (w : Nat) (s : String) : String :=
  String.mk (List.replicate (w - s.length) (Char.ofNat 48)) ++ s

/-- The id rendering of post.py line 40:
`hex(random.randint(0, 16777215))[2:].zfill(6)` applied to `n`. -/
def toHex6 (n : Nat) : String := zfill 6 (natToHex n)

/-- A persisted DynamoDB item: the five string attributes written by
`db_input` (post.py lines 115-121). -/
structure Item where
  id : String
  timestamp : String
  creator_gh_user : String
  recipient_gh_username : String
  paste : String
deriving Repr, DecidableEq

/-- The backing table, keyed by item id. -/
abbrev Store := List (String × Item)

/-- DynamoDB `put_item`: overwrites any existing item with the same id. -/
def storePut (db : Store) (k : String) (v : Item) : Store :=
  (k, v) :: db.filter (fun e => e.1 != k)

/-- DynamoDB `get_item` by primary key. -/
def storeGet (db : Store) (k : String) : Option Item :=
  (db.find? (fun e => e.1 == k)).map (fun e => e.2)

/-- Python dict read `d[k]` on a string-valued dict, as an `Option`. -/
def dictGet (d : List (String × String)) (k : String) : Option String :=
  (d.find? (fun kv => kv.1 == k)).map (fun kv => kv.2)

/-- Python dict insertion semantics: updating an existing key keeps its
position, a new key is appended. -/
def dictInsert : List (String × String) → String → String → List (String × String)
  | [], k, v => [(k, v)]
  | kv0 :: rest, k, v =>
    if kv0.1 = k then (k, v) :: rest else kv0 :: dictInsert rest k v

/-- Python `str.lower()`, modelled character-wise. -/
def pyLower (s : String) : String := String.mk (s.data.map Char.toLower)

/-- The dict comprehension of get.py lines 40-41:
`{k.lower(): v for k, v in queryStringParameters.items()}`. -/
def normalizeKeys (qsp : List (String × String)) : List (String × String) :=
  qsp.foldl (fun d kv => dictInsert d (pyLower kv.1) kv.2) []

/-- Python `str` applied to a possibly-`None` string. -/
def pyStrOpt : Option String → String
  | none => "None"
  | some s => s

/-- Outcome of the `client.put_item` network call: a response (with or
without `ResponseMetadata`, and its HTTP status code), a
`ResourceNotFoundException`, or any other exception. -/
inductive PutOutcome where
  | ok (hasMeta : Bool) (httpStatus : Nat)
  | resourceNotFound (msg : String)
  | otherExc (msg : String)
deriving Repr, DecidableEq

/-- Fallback headers used by the `except ValueError` branch of both
`generate_response` functions (identical in post.py and get.py). -/
def fallbackHeaders : List (String × String) :=
  [("Content-Type", "application/json"),
   ("Access-Control-Allow-Origin", "*"),
   ("Secret", "Writen by ChatGPT-3")]

namespace Post

/-- Headers of the main path of post.py `generate_response`. -/
def mainHeaders : List (String × String) :=
  [("Content-Type", "application/json"),
   ("Access-Control-Allow-Origin", "*"),
   ("Secret", "Writen by ChatGPT-3")]

/-- post.py `generate_response` (lines 202-237): validates the status
code and the message shape, raising and immediately catching
`ValueError` on violation, which yields the fixed 400 fallback. -/
def generate_response (status_code : PyVal) (message : PyVal) : Response :=
  match status_code with
  | .int n =>
    if 100 ≤ n ∧ n ≤ 599 then
      match message with
      | .dict _ => { statusCode := n, body := .response message, headers := mainHeaders }
      | _ => { statusCode := 400, body := .error "Invalid message", headers := fallbackHeaders }
    else { statusCode := 400, body := .error "Invalid status code", headers := fallbackHeaders }
  | _ => { statusCode := 400, body := .error "Invalid status code", headers := fallbackHeaders }

/-- The banter comment list of post.py `generate_banter_comment`. -/
def comments : List String :=
  ["Debugging is like being a detective in a mystery movie where you\x27re also the murderer.",
   "Why do programmers prefer dark mode? Less bright light when staring at their screen for hours.",
   "Debugging is like trying to find a needle in a haystack, except the needle is also made of hay.",
   "Why do developers always mix up Halloween and Christmas? Because Oct 31 equals Dec 25.",
   "Why was the JavaScript developer sad? He didn\x27t know how to \x27null\x27.",
   "Why do programmers always mix up Thanksgiving and Christmas? Because Nov 25 equals Dec 25."]

/-- post.py `generate_banter_comment`: `random.choice(comments)`, with
the random choice supplied as an index. -/
def generate_banter_comment (i : Nat) : String :=
  comments.getD (i % comments.length) ""

/-- post.py `db_input` (lines 77-146).  The whole body is a `try` whose
`except` clauses (ResourceNotFoundException and the generic `Exception`)
both return `False` and leave the table unchanged, so the function is
total.  `randVal`/`nowIso`/`env` feed the `is None` defaulting branches;
the table name selects the single modelled table. -/
def db_input (randVal : Nat) (nowIso : String) (env : Option String)
    (outcome : PutOutcome) (db : Store)
    (table_name id paste timestamp creator_gh_user recipient_gh_username : Option String) :
    Bool × Store :=
  let attempt : Except PyExc (Bool × Store) :=
    let id := id.getD (toHex6 randVal)
    let timestamp := timestamp.getD nowIso
    match (match table_name with
           | some t => Except.ok t
           | none =>
             match env with
             | some t => Except.ok t
             | none => Except.error (PyExc.keyError "TABLE_NAME")) with
    | .error e => .error e
    | .ok _table_name =>
      let paste := paste.map pyReplaceQuote
      match outcome with
      | .ok hasMeta status =>
        let item : Item :=
          { id := id, timestamp := timestamp,
            creator_gh_user := pyStrOpt creator_gh_user,
            recipient_gh_username := pyStrOpt recipient_gh_username,
            paste := pyStrOpt paste }
        let db2 := storePut db id item
        if hasMeta && (status == 200) then .ok (true, db2) else .ok (false, db2)
      | .resourceNotFound m => .error (.resourceNotFound m)
      | .otherExc m => .error (.otherError m)
  match attempt with
  | .ok r => r
  | .error _ => (false, db)

/-- A POST lambda event: `event["body"]` (absent = KeyError) together
with the result of `json.loads` on it (`none` = JSONDecodeError). -/
structure Event where
  body : Option String
  parsed : Option (List (String × String))

/-- post.py `post_request` (lines 27-74).  Everything runs inside
`try`; any raise is caught and turned into
`generate_response(500, str(e))`.  The boolean result of `db_input` is
ignored. -/
def post_request (randVal jokeIdx : Nat) (nowIso : String) (env : Option String)
    (event : Event) (outcome : PutOutcome) (db : Store) : Response × Store :=
  let id := toHex6 randVal
  let timestamp := nowIso
  match event.body with
  | none => (generate_response (.int 500) (.str (PyExc.toStr (.keyError "body"))), db)
  | some body =>
    match env with
    | none => (generate_response (.int 500) (.str (PyExc.toStr (.keyError "TABLE_NAME"))), db)
    | some table =>
      match event.parsed with
      | none =>
        (generate_response (.int 500)
          (.str (PyExc.toStr (.jsonDecodeError "Expecting value: line 1 column 1 (char 0)"))), db)
      | some json_body =>
        match dictGet json_body "paste", dictGet json_body "creator_gh_user",
              dictGet json_body "recipient_gh_username" with
        | some paste, some creator_gh_user, some recipient_gh_username =>
          let res := db_input randVal nowIso env outcome db (some table) (some id)
            (some paste) (some timestamp) (some creator_gh_user) (some recipient_gh_username)
          let message : PyVal := .dict
            [("message", "The paste was successfully inserted into the database"),
             ("id", id),
             ("timestamp", timestamp),
             ("raw_data", body),
             ("paste", paste),
             ("joke", generate_banter_comment jokeIdx)]
          (generate_response (.int 200) message, res.2)
        | _, _, _ =>
          (generate_response (.int 400)
            (.str "Missing required fields: paste, creator_gh_user, recipient_gh_username"), db)

/-- post.py `lambda_handler`: delegates to `post_request`. -/
def lambda_handler (randVal jokeIdx : Nat) (nowIso : String) (env : Option String)
    (event : Event) (outcome : PutOutcome) (db : Store) : Response × Store :=
  post_request randVal jokeIdx nowIso env event outcome db

end Post

namespace Get

/-- Headers of the main path of get.py `generate_response`. -/
def mainHeaders : List (String × String) :=
  [("Content-Type", "application/json"),
   ("Access-Control-Allow-Origin", "\x27127.0.0.1\x27"),
   ("Access-Control-Allow-Headers", "\x27Content-Type,X-Amz-Date,Authorization,X-Api-Key,X-Amz-Security-Token\x27"),
   ("Access-Control-Allow-Methods", "\x27GET,OPTIONS\x27"),
   ("Access-Control-Allow-Credentials", "\x27true\x27"),
   ("Secret", "Writen by ChatGPT-3")]

/-- get.py `generate_response` (lines 129-167): same validation and
fallback as the post.py version, different main-path headers. -/
def generate_response (status_code : PyVal) (message : PyVal) : Response :=
  match status_code with
  | .int n =>
    if 100 ≤ n ∧ n ≤ 599 then
      match message with
      | .dict _ => { statusCode := n, body := .response message, headers := mainHeaders }
      | _ => { statusCode := 400, body := .error "Invalid message", headers := fallbackHeaders }
    else { statusCode := 400, body := .error "Invalid status code", headers := fallbackHeaders }
  | _ => { statusCode := 400, body := .error "Invalid status code", headers := fallbackHeaders }

/-- The banter comment list of get.py `generate_banter_comment`
(identical to the post.py list). -/
def comments : List String :=
  ["Debugging is like being a detective in a mystery movie where you\x27re also the murderer.",
   "Why do programmers prefer dark mode? Less bright light when staring at their screen for hours.",
   "Debugging is like trying to find a needle in a haystack, except the needle is also made of hay.",
   "Why do developers always mix up Halloween and Christmas? Because Oct 31 equals Dec 25.",
   "Why was the JavaScript developer sad? He didn\x27t know how to \x27null\x27.",
   "Why do programmers always mix up Thanksgiving and Christmas? Because Nov 25 equals Dec 25."]

/-- get.py `generate_banter_comment`. -/
def generate_banter_comment (i : Nat) : String :=
  comments.getD (i % comments.length) ""

/-- get.py `export_item_values` (lines 114-126): turns the DynamoDB
item into a plain dict of its `"S"` string values, in the attribute
order the item was written with. -/
def export_item_values (item : Item) : List (String × String) :=
  [("id", item.id),
   ("timestamp", item.timestamp),
   ("creator_gh_user", item.creator_gh_user),
   ("recipient_gh_username", item.recipient_gh_username),
   ("paste", item.paste)]

/-- get.py `db_output` (lines 87-111): `get_item` by id; a missing item
raises `ValueError` which the function itself catches (as it does any
other exception), returning `None`.  The table name argument selects
the single modelled table. -/
def db_output (db : Store) (_table_name : String) (id : String) :
    Option (List (String × String)) :=
  match storeGet db id with
  | none => none
  | some item => some (export_item_values item)

/-- A GET lambda event: its `queryStringParameters` dict. -/
structure Event where
  queryStringParameters : List (String × String)

/-- get.py `get_request` (lines 26-84).  There is no `try` around the
body, so the IndexError from `list(qsp.keys())[0]` on an empty dict and
the KeyError from `os.environ["TABLE_NAME"]` escape to the caller. -/
def get_request (env : Option String) (jokeIdx : Nat) (event : Event) (db : Store) :
    Except PyExc Response :=
  let qsp := normalizeKeys event.queryStringParameters
  match qsp.head? with
  | none => .error .indexError
  | some first =>
    match env with
    | none => .error (.keyError "TABLE_NAME")
    | some table_name =>
      if first.1 != "id" || qsp.length != 1 then
        .ok (generate_response (.int 400) (.dict
          [("message", "The paste was unsuccessfully retrived from the database. Parameter is not correct"),
           ("joke", generate_banter_comment jokeIdx)]))
      else
        match dictGet qsp "id" with
        | none => .error (.keyError "id")
        | some id =>
          match db_output db table_name id with
          | none =>
            .ok (generate_response (.int 400) (.dict
              [("message", "The paste was unsuccessfully retrived from the database"),
               ("id", "Not Found"),
               ("joke", generate_banter_comment jokeIdx)]))
          | some returned_data =>
            match dictGet returned_data "id", dictGet returned_data "paste",
                  dictGet returned_data "timestamp", dictGet returned_data "creator_gh_user",
                  dictGet returned_data "recipient_gh_username" with
            | some idv, some paste, some _timestamp, some creator_gh_user,
              some recipient_gh_username =>
              .ok (generate_response (.int 200) (.dict
                [("message", "The paste was successfully retrived from the database"),
                 ("id", idv),
                 ("paste", paste),
                 ("joke", generate_banter_comment jokeIdx),
                 ("creator_gh_user", creator_gh_user),
                 ("recipient_gh_username", recipient_gh_username)]))
            | _, _, _, _, _ => .error (.keyError "item attribute")

/-- get.py `lambda_handler`: delegates to `get_request`. -/
def lambda_handler (env : Option String) (jokeIdx : Nat) (event : Event) (db : Store) :
    Except PyExc Response :=
  get_request env jokeIdx event db

end Get

/-! Helper lemmas shared by the claim theorems. -/

theorem storeGet_storePut (db : Store) (k : String) (v : Item) :
    storeGet (storePut db k v) k = some v := by
  unfold storeGet storePut
  rw [List.find?_cons_of_pos _ (by simp)]
  rfl

theorem dictInsert_ne_nil (d : List (String × String)) (k v : String) :
    dictInsert d k v ≠ [] := by
  cases d with
  | nil => simp [dictInsert]
  | cons kv0 rest =>
    unfold dictInsert
    split <;> simp

theorem foldl_dictInsert_ne_nil (l : List (String × String))
    (d : List (String × String)) (hd : d ≠ []) :
    l.foldl (fun d kv => dictInsert d (pyLower kv.1) kv.2) d ≠ [] := by
  induction l generalizing d with
  | nil => simpa using hd
  | cons x xs ih =>
    simp only [List.foldl_cons]
    exact ih _ (dictInsert_ne_nil _ _ _)

theorem normalizeKeys_ne_nil (qsp : List (String × String)) (h : qsp ≠ []) :
    normalizeKeys qsp ≠ [] := by
  cases qsp with
  | nil => exact absurd rfl h
  | cons x xs =>
    unfold normalizeKeys
    simp only [List.foldl_cons]
    exact foldl_dictInsert_ne_nil xs _ (dictInsert_ne_nil _ _ _)

theorem dictGet_export_id (item : Item) :
    dictGet (Get.export_item_values item) "id" = some item.id := rfl

theorem dictGet_export_paste (item : Item) :
    dictGet (Get.export_item_values item) "paste" = some item.paste := rfl

theorem dictGet_export_timestamp (item : Item) :
    dictGet (Get.export_item_values item) "timestamp" = some item.timestamp := rfl

theorem dictGet_export_creator (item : Item) :
    dictGet (Get.export_item_values item) "creator_gh_user" = some item.creator_gh_user := rfl

theorem dictGet_export_recipient (item : Item) :
    dictGet (Get.export_item_values item) "recipient_gh_username" =
      some item.recipient_gh_username := rfl

/-- The response envelopes that the handlers are meant to produce:
a 200 or 400 status and a main-path body wrapping a dict message. -/
def wellFormed (r : Response) : Prop :=
  (r.statusCode = 200 ∨ r.statusCode = 400) ∧
  ∃ m, r.body = RespBody.response (PyVal.dict m)

/-- C7: for every status code that is not an integer in [100, 599], and
for every message that is not a key-value object, both response
formatters return the fixed fallback envelope: status 400, an error
body naming the validation failure, and the fallback headers.  The
formatters are total functions, so they never raise. -/
theorem generate_response_fallback_c7 (sc msg : PyVal)
    (h : (¬∃ n, sc = PyVal.int n ∧ 100 ≤ n ∧ n ≤ 599) ∨ (¬∃ d, msg = PyVal.dict d)) :
    (Post.generate_response sc msg).statusCode = 400 ∧
    (∃ e, (Post.generate_response sc msg).body = RespBody.error e ∧
      (e = "Invalid status code" ∨ e = "Invalid message")) ∧
    (Post.generate_response sc msg).headers = fallbackHeaders ∧
    (Get.generate_response sc msg).statusCode = 400 ∧
    (∃ e, (Get.generate_response sc msg).body = RespBody.error e ∧
      (e = "Invalid status code" ∨ e = "Invalid message")) ∧
    (Get.generate_response sc msg).headers = fallbackHeaders := by
  rcases sc with n | s | d
  · by_cases hn : 100 ≤ n ∧ n ≤ 599
    · have hmsg : ¬∃ d, msg = PyVal.dict d := by
        rcases h with h | h
        · exact absurd ⟨n, rfl, hn⟩ h
        · exact h
      rcases msg with m | m | m
      · simp [Post.generate_response, Get.generate_response, hn]
      · simp [Post.generate_response, Get.generate_response, hn]
      · exact absurd ⟨m, rfl⟩ hmsg
    · simp [Post.generate_response, Get.generate_response, hn]
  · simp [Post.generate_response, Get.generate_response]
  · simp [Post.generate_response, Get.generate_response]

theorem generate_response_fallback_c7_witness :
    ((¬∃ n, PyVal.int 999 = PyVal.int n ∧ 100 ≤ n ∧ n ≤ 599) ∨
      (¬∃ d, (PyVal.dict []) = PyVal.dict d)) ∧
    (Post.generate_response (PyVal.int 999) (PyVal.dict [])).statusCode = 400 ∧
    (∃ e, (Post.generate_response (PyVal.int 999) (PyVal.dict [])).body = RespBody.error e ∧
      (e = "Invalid status code" ∨ e = "Invalid message")) ∧
    (Post.generate_response (PyVal.int 999) (PyVal.dict [])).headers = fallbackHeaders ∧
    (Get.generate_response (PyVal.int 999) (PyVal.dict [])).statusCode = 400 ∧
    (∃ e, (Get.generate_response (PyVal.int 999) (PyVal.dict [])).body = RespBody.error e ∧
      (e = "Invalid status code" ∨ e = "Invalid message")) ∧
    (Get.generate_response (PyVal.int 999) (PyVal.dict [])).headers = fallbackHeaders := by
  have hbad : (¬∃ n, PyVal.int 999 = PyVal.int n ∧ 100 ≤ n ∧ (n : Int) ≤ 599) := by
    rintro ⟨n, hn, h1, h2⟩
    cases hn
    omega
  exact ⟨Or.inl hbad, generate_response_fallback_c7 (PyVal.int 999) (PyVal.dict []) (Or.inl hbad)⟩

/-- C1 (code bug): when the submission handler catches an exception
(here: `TABLE_NAME` missing, and separately an unparsable JSON body) it
calls `generate_response(500, str(e))`, but the formatter rejects the
string message and returns its 400 fallback, whose body says
`Invalid message` rather than the exception text.  No 500 response and
no exception text ever reach the client. -/
theorem post_request_exception_c1 :
    (Post.post_request 0 0 "2023-01-01T00:00:00" none
        { body := some "irrelevant", parsed := none }
        (PutOutcome.otherExc "boom") []).1 =
      { statusCode := 400, body := RespBody.error "Invalid message",
        headers := fallbackHeaders } ∧
    (Post.post_request 0 0 "2023-01-01T00:00:00" (some "Pastes")
        { body := some "not json", parsed := none }
        (PutOutcome.otherExc "boom") []).1 =
      { statusCode := 400, body := RespBody.error "Invalid message",
        headers := fallbackHeaders } := by
  constructor <;> rfl

/-- C4 (code bug): a submission whose JSON body lacks the required
fields gets status 400 and no store write, but the handler's
descriptive message `Missing required fields: ...` is passed to the
formatter as a string, which the formatter rejects: the actual body is
the fallback `Invalid message`, not a missing-field description. -/
theorem post_request_missing_fields_c4 :
    Post.post_request 1 0 "2023-01-01T00:00:00" (some "Pastes")
        { body := some "\x7b\x7d", parsed := some [] }
        (PutOutcome.ok true 200) [] =
      ({ statusCode := 400, body := RespBody.error "Invalid message",
         headers := fallbackHeaders }, []) ∧
    RespBody.error "Invalid message" ≠
      RespBody.error "Missing required fields: paste, creator_gh_user, recipient_gh_username" := by
  constructor
  · rfl
  · decide

/-- C2 (counterexample): a retrieval request with zero query parameters
does not produce a 400 response: `list(queryStringParameters.keys())[0]`
raises IndexError before the parameter-shape check is reached. -/
theorem get_request_zero_params_c2_cex :
    Get.get_request (some "PastesTable2") 0 { queryStringParameters := [] } [] =
      Except.error PyExc.indexError := rfl

/-- C3 (counterexample): the retrieval handler does raise past its own
boundary: with zero query parameters it raises IndexError, and with the
`TABLE_NAME` configuration absent it raises KeyError; neither path
returns a response envelope. -/
theorem get_request_crash_c3_cex :
    Get.get_request (some "PastesTable") 5 { queryStringParameters := [] } [] =
      Except.error PyExc.indexError ∧
    Get.get_request none 5 { queryStringParameters := [("id", "abc123")] } [] =
      Except.error (PyExc.keyError "TABLE_NAME") := by
  constructor <;> rfl

/-- C2 (amended): for every retrieval request with at least one query
parameter and `TABLE_NAME` configured, if the case-normalized key set
is not exactly the single key `id` the handler returns status 400 with
the parameter-shape message, and the result is independent of the store
contents (no store lookup occurs). -/
theorem get_request_bad_params_c2 (t : String) (jokeIdx : Nat) (event : Get.Event)
    (db db2 : Store)
    (hne : event.queryStringParameters ≠ [])
    (hkeys : (normalizeKeys event.queryStringParameters).map Prod.fst ≠ ["id"]) :
    Get.get_request (some t) jokeIdx event db = Get.get_request (some t) jokeIdx event db2 ∧
    Get.get_request (some t) jokeIdx event db =
      Except.ok (Get.generate_response (PyVal.int 400) (PyVal.dict
        [("message", "The paste was unsuccessfully retrived from the database. Parameter is not correct"),
         ("joke", Get.generate_banter_comment jokeIdx)])) := by
  have hq := normalizeKeys_ne_nil event.queryStringParameters hne
  rcases hql : normalizeKeys event.queryStringParameters with _ | ⟨⟨k, v⟩, rest⟩
  · exact absurd hql hq
  · have hfalse : ¬(k = "id" ∧ rest = []) := by
      rintro ⟨hk, hr⟩
      apply hkeys
      rw [hql, hk, hr]
      rfl
    have hp : ¬k = "id" ∨ ¬rest = [] := by tauto
    constructor
    · simp [Get.get_request, hql]
      simp only [if_pos hp]
    · simp [Get.get_request, hql]
      intro hk hr
      exact absurd ⟨hk, hr⟩ hfalse

/-- C3 (amended): for every retrieval request that carries at least one
query parameter, when `TABLE_NAME` is configured no exception escapes
the handler: every path returns a well-formed response envelope (status
200 or 400 wrapping a dict message).  With zero query parameters, or
with `TABLE_NAME` absent, the handler raises instead (see the
counterexample). -/
theorem get_request_total_c3 (t : String) (jokeIdx : Nat) (event : Get.Event) (db : Store)
    (hne : event.queryStringParameters ≠ []) :
    ∃ r, Get.get_request (some t) jokeIdx event db = Except.ok r ∧ wellFormed r := by
  have hq := normalizeKeys_ne_nil event.queryStringParameters hne
  rcases hql : normalizeKeys event.queryStringParameters with _ | ⟨⟨k, v⟩, rest⟩
  · exact absurd hql hq
  rcases hc : ((k, v).1 != "id" || (((k, v) :: rest).length != 1)) with _ | _
  · -- the parameter shape check passes: exactly one parameter named id
    have hkrest : k = "id" ∧ rest = [] := by
      simp only [Bool.or_eq_false_iff, bne_eq_false_iff_eq] at hc
      refine ⟨hc.1, ?_⟩
      have h2 := hc.2
      cases rest with
      | nil => rfl
      | cons a as => simp at h2
    obtain ⟨hk, hrest⟩ := hkrest
    subst hk hrest
    rcases hdb : storeGet db v with _ | item
    · exact ⟨Get.generate_response (PyVal.int 400) (PyVal.dict
          [("message", "The paste was unsuccessfully retrived from the database"),
           ("id", "Not Found"),
           ("joke", Get.generate_banter_comment jokeIdx)]),
        by simp [Get.get_request, hql, hc, Get.db_output, hdb, dictGet, List.find?],
        by simp [wellFormed, Get.generate_response]⟩
    · exact ⟨Get.generate_response (PyVal.int 200) (PyVal.dict
          [("message", "The paste was successfully retrived from the database"),
           ("id", item.id),
           ("paste", item.paste),
           ("joke", Get.generate_banter_comment jokeIdx),
           ("creator_gh_user", item.creator_gh_user),
           ("recipient_gh_username", item.recipient_gh_username)]),
        by simp [Get.get_request, hql, hc, Get.db_output, hdb, dictGet_export_id,
                 dictGet_export_paste, dictGet_export_timestamp, dictGet_export_creator,
                 dictGet_export_recipient, dictGet, List.find?],
        by simp [wellFormed, Get.generate_response]⟩
  · have hp : ¬k = "id" ∨ ¬rest = [] := by
      simp only [Bool.or_eq_true, bne_iff_ne] at hc
      rcases hc with h | h
      · exact Or.inl (by simpa using h)
      · right
        rcases rest with _ | ⟨x, xs⟩
        · simp at h
        · simp
    exact ⟨Get.generate_response (PyVal.int 400) (PyVal.dict
        [("message", "The paste was unsuccessfully retrived from the database. Parameter is not correct"),
         ("joke", Get.generate_banter_comment jokeIdx)]),
      by
        simp [Get.get_request, hql]
        intro hk hr
        rcases hp with h | h
        · exact absurd hk h
        · exact absurd hr h,
      by simp [wellFormed, Get.generate_response]⟩

theorem get_request_bad_params_c2_witness :
    ([("foo", "1"), ("bar", "2")] : List (String × String)) ≠ [] ∧
    (normalizeKeys [("foo", "1"), ("bar", "2")]).map Prod.fst ≠ ["id"] ∧
    (Get.get_request (some "Pastes") 0 { queryStringParameters := [("foo", "1"), ("bar", "2")] } [] =
      Get.get_request (some "Pastes") 0 { queryStringParameters := [("foo", "1"), ("bar", "2")] }
        [("aaaaaa", { id := "aaaaaa", timestamp := "t", creator_gh_user := "c",
                      recipient_gh_username := "r", paste := "p" })] ∧
     Get.get_request (some "Pastes") 0 { queryStringParameters := [("foo", "1"), ("bar", "2")] } [] =
      Except.ok (Get.generate_response (PyVal.int 400) (PyVal.dict
        [("message", "The paste was unsuccessfully retrived from the database. Parameter is not correct"),
         ("joke", Get.generate_banter_comment 0)]))) := by
  refine ⟨by decide, by decide, ?_⟩
  exact get_request_bad_params_c2 "Pastes" 0 { queryStringParameters := [("foo", "1"), ("bar", "2")] }
    [] [("aaaaaa", { id := "aaaaaa", timestamp := "t", creator_gh_user := "c",
                     recipient_gh_username := "r", paste := "p" })] (by decide) (by decide)

theorem get_request_total_c3_witness :
    ([("ID", "abc123")] : List (String × String)) ≠ [] ∧
    (∃ r, Get.get_request (some "Pastes") 1 { queryStringParameters := [("ID", "abc123")] } [] =
      Except.ok r ∧ wellFormed r) := by
  exact ⟨by decide,
    get_request_total_c3 "Pastes" 1 { queryStringParameters := [("ID", "abc123")] } [] (by decide)⟩

/-- C5: every submission that passes required-field validation returns
status 200 echoing id, timestamp, raw body and paste text, and the
response is the same whatever the outcome of the store put: the boolean
result of `db_input` is never consulted. -/
theorem post_request_success_c5 (randVal jokeIdx : Nat) (nowIso t bodyStr : String)
    (json_body : List (String × String)) (p c r : String) (db : Store)
    (outcome outcome2 : PutOutcome)
    (hp : dictGet json_body "paste" = some p)
    (hc : dictGet json_body "creator_gh_user" = some c)
    (hr : dictGet json_body "recipient_gh_username" = some r) :
    (Post.post_request randVal jokeIdx nowIso (some t)
        { body := some bodyStr, parsed := some json_body } outcome db).1 =
      { statusCode := 200,
        body := RespBody.response (PyVal.dict
          [("message", "The paste was successfully inserted into the database"),
           ("id", toHex6 randVal),
           ("timestamp", nowIso),
           ("raw_data", bodyStr),
           ("paste", p),
           ("joke", Post.generate_banter_comment jokeIdx)]),
        headers := Post.mainHeaders } ∧
    (Post.post_request randVal jokeIdx nowIso (some t)
        { body := some bodyStr, parsed := some json_body } outcome db).1 =
      (Post.post_request randVal jokeIdx nowIso (some t)
        { body := some bodyStr, parsed := some json_body } outcome2 db).1 := by
  constructor
  · simp [Post.post_request, hp, hc, hr, Post.generate_response]
  · simp [Post.post_request, hp, hc, hr]

theorem post_request_success_c5_witness :
    dictGet [("paste", "x"), ("creator_gh_user", "u1"), ("recipient_gh_username", "u2")]
      "paste" = some "x" ∧
    dictGet [("paste", "x"), ("creator_gh_user", "u1"), ("recipient_gh_username", "u2")]
      "creator_gh_user" = some "u1" ∧
    dictGet [("paste", "x"), ("creator_gh_user", "u1"), ("recipient_gh_username", "u2")]
      "recipient_gh_username" = some "u2" ∧
    ((Post.post_request 42 0 "2023-01-01T00:00:00" (some "Pastes")
        { body := some "rawbody",
          parsed := some [("paste", "x"), ("creator_gh_user", "u1"), ("recipient_gh_username", "u2")] }
        (PutOutcome.ok true 200) []).1 =
      { statusCode := 200,
        body := RespBody.response (PyVal.dict
          [("message", "The paste was successfully inserted into the database"),
           ("id", toHex6 42),
           ("timestamp", "2023-01-01T00:00:00"),
           ("raw_data", "rawbody"),
           ("paste", "x"),
           ("joke", Post.generate_banter_comment 0)]),
        headers := Post.mainHeaders } ∧
    (Post.post_request 42 0 "2023-01-01T00:00:00" (some "Pastes")
        { body := some "rawbody",
          parsed := some [("paste", "x"), ("creator_gh_user", "u1"), ("recipient_gh_username", "u2")] }
        (PutOutcome.ok true 200) []).1 =
      (Post.post_request 42 0 "2023-01-01T00:00:00" (some "Pastes")
        { body := some "rawbody",
          parsed := some [("paste", "x"), ("creator_gh_user", "u1"), ("recipient_gh_username", "u2")] }
        (PutOutcome.resourceNotFound "no table") []).1) :=
  ⟨rfl, rfl, rfl,
    post_request_success_c5 42 0 "2023-01-01T00:00:00" "Pastes" "rawbody"
      [("paste", "x"), ("creator_gh_user", "u1"), ("recipient_gh_username", "u2")]
      "x" "u1" "u2" [] (PutOutcome.ok true 200) (PutOutcome.resourceNotFound "no table")
      rfl rfl rfl⟩

/-- C9: the store adapter's put returns true exactly when the table
name resolves and the put call comes back with response metadata
carrying HTTP status 200; every recognized failure (table not found)
and every other exception yields false.  `db_input` is a total
function, so it never raises to its caller. -/
theorem db_input_result_c9 (randVal : Nat) (nowIso : String) (env : Option String)
    (outcome : PutOutcome) (db : Store)
    (table_name id paste timestamp creator_gh_user recipient_gh_username : Option String) :
    (Post.db_input randVal nowIso env outcome db table_name id paste timestamp
        creator_gh_user recipient_gh_username).1 = true ↔
      ((table_name.isSome ∨ env.isSome) ∧ outcome = PutOutcome.ok true 200) := by
  rcases table_name with _ | tn <;> rcases env with _ | e <;>
    rcases outcome with ⟨hm, st⟩ | m | m <;>
      simp [Post.db_input] <;>
      rcases hm with _ | _ <;>
        by_cases hst : st = 200 <;>
          simp [hst]

/-- Membership test for the character class `[0-9a-f]`. -/
def isHexChar (c : Char) : Bool :=
  (48 ≤ c.toNat && c.toNat ≤ 57) || (97 ≤ c.toNat && c.toNat ≤ 102)

/-- Membership test for the regular expression `[0-9a-f]` repeated
exactly six times. -/
def isHex6 (s : String) : Bool := (s.length == 6) && s.data.all isHexChar

theorem hexDigitChar_isHex : ∀ d < 16, isHexChar (hexDigitChar d) = true := by decide

theorem natToHexLoop_chars (n : Nat) : ∀ acc, (∀ ch ∈ acc, isHexChar ch = true) →
    ∀ ch ∈ natToHexLoop n acc, isHexChar ch = true := by
  induction n using Nat.strong_induction_on with
  | _ n ih =>
    intro acc hacc ch hch
    unfold natToHexLoop at hch
    split at hch
    · rename_i h
      rcases List.mem_cons.mp hch with hch | hch
      · exact hch ▸ hexDigitChar_isHex n h
      · exact hacc ch hch
    · rename_i h
      refine ih (n / 16) (Nat.div_lt_self (by omega) (by omega)) _ ?_ ch hch
      intro c hc
      rcases List.mem_cons.mp hc with hc | hc
      · exact hc ▸ hexDigitChar_isHex (n % 16) (Nat.mod_lt n (by omega))
      · exact hacc c hc

theorem natToHexLoop_length : ∀ (k : Nat), 1 ≤ k → ∀ n acc, n < 16 ^ k →
    (natToHexLoop n acc).length ≤ k + acc.length := by
  intro k
  induction k with
  | zero => intro h; omega
  | succ k ih =>
    intro _ n acc hn
    unfold natToHexLoop
    split
    · simp only [List.length_cons]
      omega
    · rename_i h
      have hk1 : 1 ≤ k := by
        rcases Nat.eq_zero_or_pos k with hk | hk
        · subst hk
          simp only [pow_succ, pow_zero, one_mul] at hn
          omega
        · exact hk
      have hdiv : n / 16 < 16 ^ k := by
        rw [Nat.div_lt_iff_lt_mul (by omega)]
        rw [← pow_succ]
        exact hn
      have := ih hk1 (n / 16) (hexDigitChar (n % 16) :: acc) hdiv
      simp only [List.length_cons] at this
      omega

/-- C8:'for every random value in [0, 16777215], the generated id is a
6-character zero-padded lowercase hexadecimal string matching
`[0-9a-f]` at each of its six positions'. -/
theorem toHex6_format_c8 (n : Nat) (h : n ≤ 16777215) : isHex6 (toHex6 n) = true := by
  have h16 : n < 16 ^ 6 := by
    have : (16 : Nat) ^ 6 = 16777216 := by norm_num
    omega
  have hlen : (natToHexLoop n []).length ≤ 6 := by
    simpa using natToHexLoop_length 6 (by omega) n [] h16
  have hchars : ∀ ch ∈ natToHexLoop n [], isHexChar ch = true :=
    natToHexLoop_chars n [] (by simp)
  have hlenmk : (natToHex n).length = (natToHexLoop n []).length := by
    simp [natToHex]
  unfold isHex6 toHex6 zfill
  rw [Bool.and_eq_true, beq_iff_eq]
  constructor
  · simp [hlenmk]
    omega
  · rw [List.all_eq_true]
    intro ch hch
    simp only [String.data_append, List.mem_append] at hch
    rcases hch with hch | hch
    · have : ch = Char.ofNat 48 := List.eq_of_mem_replicate (by simpa using hch)
      subst this
      decide
    · exact hchars ch (by simpa [natToHex] using hch)

theorem toHex6_format_c8_witness : (255 : Nat) ≤ 16777215 ∧ isHex6 (toHex6 255) = true :=
  ⟨by decide, toHex6_format_c8 255 (by decide)⟩

/-- C6: submitting the body with paste `hello`, creator `alice` and
recipient `bob` returns a 200 response carrying the generated id, and a
subsequent retrieval with that id returns a 200 response whose paste,
creator_gh_user and recipient_gh_username equal the submitted values.
The statement quantifies over the random value, timestamps, jokes,
table name, raw body string and prior store contents. -/
theorem round_trip_c6 (randVal jokeIdx1 jokeIdx2 : Nat) (nowIso t bodyStr : String) (db : Store) :
    (Post.post_request randVal jokeIdx1 nowIso (some t)
        { body := some bodyStr,
          parsed := some [("paste", "hello"), ("creator_gh_user", "alice"),
                          ("recipient_gh_username", "bob")] }
        (PutOutcome.ok true 200) db).1 =
      { statusCode := 200,
        body := RespBody.response (PyVal.dict
          [("message", "The paste was successfully inserted into the database"),
           ("id", toHex6 randVal),
           ("timestamp", nowIso),
           ("raw_data", bodyStr),
           ("paste", "hello"),
           ("joke", Post.generate_banter_comment jokeIdx1)]),
        headers := Post.mainHeaders } ∧
    Get.get_request (some t) jokeIdx2
        { queryStringParameters := [("id", toHex6 randVal)] }
        (Post.post_request randVal jokeIdx1 nowIso (some t)
          { body := some bodyStr,
            parsed := some [("paste", "hello"), ("creator_gh_user", "alice"),
                            ("recipient_gh_username", "bob")] }
          (PutOutcome.ok true 200) db).2 =
      Except.ok
        { statusCode := 200,
          body := RespBody.response (PyVal.dict
            [("message", "The paste was successfully retrived from the database"),
             ("id", toHex6 randVal),
             ("paste", "hello"),
             ("joke", Get.generate_banter_comment jokeIdx2),
             ("creator_gh_user", "alice"),
             ("recipient_gh_username", "bob")]),
          headers := Get.mainHeaders } := by
  have hdb2 : (Post.post_request randVal jokeIdx1 nowIso (some t)
      { body := some bodyStr,
        parsed := some [("paste", "hello"), ("creator_gh_user", "alice"),
                        ("recipient_gh_username", "bob")] }
      (PutOutcome.ok true 200) db).2 =
      storePut db (toHex6 randVal)
        { id := toHex6 randVal, timestamp := nowIso, creator_gh_user := "alice",
          recipient_gh_username := "bob", paste := "hello" } := rfl
  have hlow : normalizeKeys [("id", toHex6 randVal)] = [("id", toHex6 randVal)] := rfl
  have hpl : pyLower "id" = "id" := rfl
  constructor
  · rfl
  · rw [hdb2]
    simp [Get.get_request, hlow, hpl, Get.db_output, storeGet_storePut, dictGet_export_id,
          dictGet_export_paste, dictGet_export_timestamp, dictGet_export_creator,
          dictGet_export_recipient, dictGet, List.find?, Get.generate_response]

theorem replaceQuoteList_length (l : List Char) :
    (replaceQuoteList l).length = l.length + l.count squote := by
  induction l with
  | nil => simp [replaceQuoteList]
  | cons ch rest ih =>
    by_cases hc : ch = squote
    · subst hc
      simp [replaceQuoteList, ih, List.count_cons]
      omega
    · simp [replaceQuoteList, hc, ih, List.count_cons]
      omega

theorem pyReplaceQuote_ne (p : String) (hq : squote ∈ p.data) : pyReplaceQuote p ≠ p := by
  intro he
  have hlen : (replaceQuoteList p.data).length = p.data.length := by
    have := congrArg (fun s => s.data.length) he
    simpa [pyReplaceQuote] using this
  have hcount : 0 < p.data.count squote := List.count_pos_iff.mpr hq
  have := replaceQuoteList_length p.data
  omega

/-- C10: for every paste text containing a single quote, the persisted
paste is the submitted text with each quote doubled, retrieval returns
that doubled form unchanged, and the doubled form differs from the
original: submit-then-retrieve is not the identity on such pastes. -/
theorem quote_roundtrip_c10 (randVal jokeIdx1 jokeIdx2 : Nat)
    (nowIso t bodyStr p c r : String) (db : Store)
    (hq : squote ∈ p.data) :
    storeGet (Post.post_request randVal jokeIdx1 nowIso (some t)
        { body := some bodyStr,
          parsed := some [("paste", p), ("creator_gh_user", c), ("recipient_gh_username", r)] }
        (PutOutcome.ok true 200) db).2 (toHex6 randVal) =
      some { id := toHex6 randVal, timestamp := nowIso, creator_gh_user := c,
             recipient_gh_username := r, paste := pyReplaceQuote p } ∧
    Get.get_request (some t) jokeIdx2
        { queryStringParameters := [("id", toHex6 randVal)] }
        (Post.post_request randVal jokeIdx1 nowIso (some t)
          { body := some bodyStr,
            parsed := some [("paste", p), ("creator_gh_user", c), ("recipient_gh_username", r)] }
          (PutOutcome.ok true 200) db).2 =
      Except.ok
        { statusCode := 200,
          body := RespBody.response (PyVal.dict
            [("message", "The paste was successfully retrived from the database"),
             ("id", toHex6 randVal),
             ("paste", pyReplaceQuote p),
             ("joke", Get.generate_banter_comment jokeIdx2),
             ("creator_gh_user", c),
             ("recipient_gh_username", r)]),
          headers := Get.mainHeaders } ∧
    pyReplaceQuote p ≠ p := by
  have hdb2 : (Post.post_request randVal jokeIdx1 nowIso (some t)
      { body := some bodyStr,
        parsed := some [("paste", p), ("creator_gh_user", c), ("recipient_gh_username", r)] }
      (PutOutcome.ok true 200) db).2 =
      storePut db (toHex6 randVal)
        { id := toHex6 randVal, timestamp := nowIso, creator_gh_user := c,
          recipient_gh_username := r, paste := pyReplaceQuote p } := rfl
  have hlow : normalizeKeys [("id", toHex6 randVal)] = [("id", toHex6 randVal)] := rfl
  have hpl : pyLower "id" = "id" := rfl
  refine ⟨?_, ?_, pyReplaceQuote_ne p hq⟩
  · rw [hdb2]
    exact storeGet_storePut db (toHex6 randVal) _
  · rw [hdb2]
    simp [Get.get_request, hlow, hpl, Get.db_output, storeGet_storePut, dictGet_export_id,
          dictGet_export_paste, dictGet_export_timestamp, dictGet_export_creator,
          dictGet_export_recipient, dictGet, List.find?, Get.generate_response]

theorem quote_roundtrip_c10_witness :
    squote ∈ ("a\x27b" : String).data ∧
    (storeGet (Post.post_request 7 0 "2023-01-01T00:00:00" (some "Pastes")
        { body := some "rawbody",
          parsed := some [("paste", "a\x27b"), ("creator_gh_user", "alice"),
                          ("recipient_gh_username", "bob")] }
        (PutOutcome.ok true 200) []).2 (toHex6 7) =
      some { id := toHex6 7, timestamp := "2023-01-01T00:00:00", creator_gh_user := "alice",
             recipient_gh_username := "bob", paste := pyReplaceQuote "a\x27b" } ∧
    Get.get_request (some "Pastes") 1
        { queryStringParameters := [("id", toHex6 7)] }
        (Post.post_request 7 0 "2023-01-01T00:00:00" (some "Pastes")
          { body := some "rawbody",
            parsed := some [("paste", "a\x27b"), ("creator_gh_user", "alice"),
                            ("recipient_gh_username", "bob")] }
          (PutOutcome.ok true 200) []).2 =
      Except.ok
        { statusCode := 200,
          body := RespBody.response (PyVal.dict
            [("message", "The paste was successfully retrived from the database"),
             ("id", toHex6 7),
             ("paste", pyReplaceQuote "a\x27b"),
             ("joke", Get.generate_banter_comment 1),
             ("creator_gh_user", "alice"),
             ("recipient_gh_username", "bob")]),
          headers := Get.mainHeaders } ∧
    pyReplaceQuote "a\x27b" ≠ "a\x27b") :=
  ⟨by decide,
    quote_roundtrip_c10 7 0 1 "2023-01-01T00:00:00" "Pastes" "rawbody" "a\x27b" "alice" "bob" []
      (by decide)⟩
